import Mathlib

/-!
Verification of the quota-and-entitlement accounting engine of the
Sam-pixels backend.  The definitions below are a shallow embedding of
`src/backend/processing/models.py` (class `DailyUsage`),
`src/backend/accounts/models.py` (class `User`, property `subscription`)
and `src/backend/subscriptions/models.py` (classes `SubscriptionPlan`,
`Subscription`).  Counters and limits are Python ints, embedded as `Int`;
persistence (`self.save()`) is embedded by returning the updated row.
-/

/-- The only plan field the core reads: `monthly_processing_limit`
(`IntegerField(null=True)`, `None` = unlimited). -/
structure SubscriptionPlan where
  monthly_processing_limit : Option Int
deriving Repr, DecidableEq

/-- A subscription row: its plan, its `status` string and its validity
window endpoints (timestamps embedded as `Int`). -/
structure Subscription where
  plan : SubscriptionPlan
  status : String
  current_period_start : Int
  current_period_end : Int
deriving Repr, DecidableEq

/-- `Subscription.is_active` from `subscriptions/models.py`:
`self.status == 'active' and self.current_period_end > timezone.now()`.
The clock is passed explicitly. -/
def Subscription.is_active (self : Subscription) (now : Int) : Bool :=
  self.status == "active" && decide (now < self.current_period_end)

/-- A user, carrying its related `subscriptions` rows (in the row order
the database would return them). -/
structure User where
  subscriptions : List Subscription
deriving Repr, DecidableEq

/-- `User.subscription` from `accounts/models.py`:
`self.subscriptions.filter(status='active').first()`. -/
def User.subscription (self : User) : Option Subscription :=
  (self.subscriptions.filter (fun s => s.status == "active")).head?

/-- A `DailyUsage` ledger row: its owning user and the four raw
counters (`IntegerField(default=0)`). -/
structure DailyUsage where
  user : User
  background_removal_count : Int
  image_upscaling_count : Int
  text_watermark_count : Int
  crop_resize_count : Int
deriving Repr, DecidableEq

/-- One `{used, limit}` pair of the limits dict. -/
structure Bucket where
  used : Int
  limit : Int
deriving Repr, DecidableEq

/-- The limits dict returned by `get_limits_dict`: its three fixed keys
`background-removal`, `image-upscaling`, `image-transform`. -/
structure Limits where
  background_removal : Bucket
  image_upscaling : Bucket
  image_transform : Bucket
deriving Repr, DecidableEq

/-- `DailyUsage.get_limits_dict` from `processing/models.py`. -/
def DailyUsage.get_limits_dict (self : DailyUsage) : Limits :=
  match self.user.subscription with
  | none =>
      { background_removal := { used := self.background_removal_count, limit := 10 }
        image_upscaling := { used := self.image_upscaling_count, limit := 5 }
        image_transform := { used := self.text_watermark_count + self.crop_resize_count, limit := 20 } }
  | some subscription =>
      let plan := subscription.plan
      match plan.monthly_processing_limit with
      | none =>
          { background_removal := { used := self.background_removal_count, limit := -1 }
            image_upscaling := { used := self.image_upscaling_count, limit := -1 }
            image_transform := { used := self.text_watermark_count + self.crop_resize_count, limit := -1 } }
      | some n =>
          { background_removal := { used := self.background_removal_count, limit := n }
            image_upscaling := { used := self.image_upscaling_count, limit := n }
            image_transform := { used := self.text_watermark_count + self.crop_resize_count, limit := n } }

/-- `DailyUsage.can_process` from `processing/models.py`: select the
`{limit, used}` pair of the mapped bucket, then
`return limit == -1 or used < limit`. -/
def DailyUsage.can_process (self : DailyUsage) (processing_type : String) : Bool :=
  let limits := self.get_limits_dict
  let pair :=
    if processing_type == "background-removal" then
      (limits.background_removal.limit, limits.background_removal.used)
    else if processing_type == "image-upscaling" then
      (limits.image_upscaling.limit, limits.image_upscaling.used)
    else
      (limits.image_transform.limit, limits.image_transform.used)
  pair.1 == -1 || decide (pair.2 < pair.1)

/-- `DailyUsage.increment_usage` from `processing/models.py`; the final
unconditional `self.save()` is embedded as returning the row. -/
def DailyUsage.increment_usage (self : DailyUsage) (processing_type : String) : DailyUsage :=
  if processing_type == "background-removal" then
    { self with background_removal_count := self.background_removal_count + 1 }
  else if processing_type == "image-upscaling" then
    { self with image_upscaling_count := self.image_upscaling_count + 1 }
  else if processing_type == "text-watermark" then
    { self with text_watermark_count := self.text_watermark_count + 1 }
  else if processing_type == "crop-resize" then
    { self with crop_resize_count := self.crop_resize_count + 1 }
  else
    self

/-- The bucket `can_process` reads for a given operation type:
`background-removal` and `image-upscaling` map to their own buckets,
everything else to `image-transform`. -/
def mappedBucket (limits : Limits) (processing_type : String) : Bucket :=
  if processing_type == "background-removal" then limits.background_removal
  else if processing_type == "image-upscaling" then limits.image_upscaling
  else limits.image_transform

/-- The operations of the core, for stating ledger invariants:
`get_limits_dict` and `can_process` are reads, `increment_usage` writes. -/
inductive CoreOp where
  | getLimits : CoreOp
  | canProcess : String → CoreOp
  | increment : String → CoreOp
deriving Repr, DecidableEq

/-- Effect of one core operation on the ledger row: the two reads leave
the row unchanged, the increment replaces it with the saved row. -/
def applyOp (u : DailyUsage) : CoreOp → DailyUsage
  | CoreOp.getLimits => u
  | CoreOp.canProcess _ => u
  | CoreOp.increment t => u.increment_usage t

/-- A concrete subscription on a plan with monthly limit 100 whose
status is `active` but whose period already ended by time 200. -/
def exPaidSub : Subscription :=
  Subscription.mk (SubscriptionPlan.mk (some 100)) "active" 0 100

/-- A concrete user holding only `exPaidSub`. -/
def exPaidUser : User := User.mk [exPaidSub]

/-- A concrete ledger row owned by `exPaidUser`. -/
def exPaidRow : DailyUsage := DailyUsage.mk exPaidUser 1 2 3 4

/-- A concrete free-tier ledger row (no subscription rows). -/
def exFreeRow : DailyUsage := DailyUsage.mk (User.mk []) 0 0 3 4

/-- A concrete free-tier ledger row whose background-removal counter is
already at the free ceiling 10. -/
def exFreeRowAtCap : DailyUsage := DailyUsage.mk (User.mk []) 10 0 3 4

example :
    let u : User := { subscriptions := [] }
    let d : DailyUsage := { user := u, background_removal_count := 10,
                            image_upscaling_count := 0, text_watermark_count := 0,
                            crop_resize_count := 0 }
    d.can_process "background-removal" = false ∧ d.can_process "image-upscaling" = true := by
  decide

/-- Helper: the `used` field of every bucket of `get_limits_dict` equals
the corresponding raw counter(s) of the row, in all three branches. -/
theorem get_limits_dict_used (d : DailyUsage) :
    d.get_limits_dict.background_removal.used = d.background_removal_count ∧
    d.get_limits_dict.image_upscaling.used = d.image_upscaling_count ∧
    d.get_limits_dict.image_transform.used = d.text_watermark_count + d.crop_resize_count := by
  unfold DailyUsage.get_limits_dict
  rcases h : d.user.subscription with _ | s
  · simp [h]
  · rcases hp : s.plan.monthly_processing_limit with _ | n <;> simp [h, hp]

/-- Helper: every `limit` field of `get_limits_dict` depends only on the
row's user, not on the counters. -/
theorem get_limits_dict_limits_user (d e : DailyUsage) (h : d.user = e.user) :
    d.get_limits_dict.background_removal.limit = e.get_limits_dict.background_removal.limit ∧
    d.get_limits_dict.image_upscaling.limit = e.get_limits_dict.image_upscaling.limit ∧
    d.get_limits_dict.image_transform.limit = e.get_limits_dict.image_transform.limit := by
  unfold DailyUsage.get_limits_dict
  rw [h]
  rcases hs : e.user.subscription with _ | s
  · simp [hs]
  · rcases hp : s.plan.monthly_processing_limit with _ | n <;> simp [hs, hp]

/-- Helper: field-level characterization of `increment_usage`: each
counter gains 1 exactly when the type string matches exactly, and the
owning user is untouched. -/
theorem increment_usage_counts (d : DailyUsage) (t : String) :
    (d.increment_usage t).background_removal_count =
      (if t = "background-removal" then d.background_removal_count + 1
       else d.background_removal_count) ∧
    (d.increment_usage t).image_upscaling_count =
      (if t = "image-upscaling" then d.image_upscaling_count + 1
       else d.image_upscaling_count) ∧
    (d.increment_usage t).text_watermark_count =
      (if t = "text-watermark" then d.text_watermark_count + 1
       else d.text_watermark_count) ∧
    (d.increment_usage t).crop_resize_count =
      (if t = "crop-resize" then d.crop_resize_count + 1
       else d.crop_resize_count) ∧
    (d.increment_usage t).user = d.user := by
  unfold DailyUsage.increment_usage
  by_cases h1 : t = "background-removal" <;> by_cases h2 : t = "image-upscaling" <;>
    by_cases h3 : t = "text-watermark" <;> by_cases h4 : t = "crop-resize" <;>
    simp_all

/-- Claim C1: for every usage row and operation type, `can_process`
returns false exactly when the mapped bucket's limit is not -1 and its
used count is at least that limit (so `used == limit` denies and
`limit == -1` always admits). -/
theorem C1_can_process_iff (d : DailyUsage) (t : String) :
    d.can_process t = false ↔
      ((mappedBucket d.get_limits_dict t).limit ≠ -1 ∧
       (mappedBucket d.get_limits_dict t).limit ≤ (mappedBucket d.get_limits_dict t).used) := by
  unfold DailyUsage.can_process mappedBucket
  by_cases h1 : t = "background-removal" <;> by_cases h2 : t = "image-upscaling" <;>
    simp [h1, h2]

/-- Claim C2: a user with no active subscription gets exactly the
free-tier ceilings 10/5/20, with each bucket's used equal to the row's
actual counters (image-transform used = watermark + crop-resize). -/
theorem C2_free_tier_limits (d : DailyUsage) (h : d.user.subscription = none) :
    d.get_limits_dict.background_removal = { used := d.background_removal_count, limit := 10 } ∧
    d.get_limits_dict.image_upscaling = { used := d.image_upscaling_count, limit := 5 } ∧
    d.get_limits_dict.image_transform =
      { used := d.text_watermark_count + d.crop_resize_count, limit := 20 } := by
  unfold DailyUsage.get_limits_dict
  simp [h]

/-- Witness for C2, at a user with no subscription row at all. -/
theorem C2_free_tier_limits_witness :
    (DailyUsage.mk (User.mk []) 2 3 4 5).user.subscription = none ∧
    ((DailyUsage.mk (User.mk []) 2 3 4 5).get_limits_dict.background_removal =
        { used := 2, limit := 10 } ∧
      (DailyUsage.mk (User.mk []) 2 3 4 5).get_limits_dict.image_upscaling =
        { used := 3, limit := 5 } ∧
      (DailyUsage.mk (User.mk []) 2 3 4 5).get_limits_dict.image_transform =
        { used := 4 + 5, limit := 20 }) :=
  ⟨rfl, C2_free_tier_limits (DailyUsage.mk (User.mk []) 2 3 4 5) rfl⟩

/-- Claim C3: an active subscription whose plan has no
`monthly_processing_limit` gives every bucket limit -1, with used still
the actual counters. -/
theorem C3_unlimited_plan (d : DailyUsage) (s : Subscription)
    (hs : d.user.subscription = some s) (hp : s.plan.monthly_processing_limit = none) :
    d.get_limits_dict.background_removal = { used := d.background_removal_count, limit := -1 } ∧
    d.get_limits_dict.image_upscaling = { used := d.image_upscaling_count, limit := -1 } ∧
    d.get_limits_dict.image_transform =
      { used := d.text_watermark_count + d.crop_resize_count, limit := -1 } := by
  unfold DailyUsage.get_limits_dict
  simp [hs, hp]

/-- Witness for C3: a concrete active unlimited-plan subscription. -/
theorem C3_unlimited_plan_witness :
    (DailyUsage.mk
        (User.mk [Subscription.mk (SubscriptionPlan.mk none) "active" 0 100]) 7 8 9 11).user.subscription =
      some (Subscription.mk (SubscriptionPlan.mk none) "active" 0 100) ∧
    (Subscription.mk (SubscriptionPlan.mk none) "active" 0 100).plan.monthly_processing_limit = none ∧
    ((DailyUsage.mk
          (User.mk [Subscription.mk (SubscriptionPlan.mk none) "active" 0 100]) 7 8 9 11).get_limits_dict.background_removal =
        { used := 7, limit := -1 } ∧
      (DailyUsage.mk
          (User.mk [Subscription.mk (SubscriptionPlan.mk none) "active" 0 100]) 7 8 9 11).get_limits_dict.image_upscaling =
        { used := 8, limit := -1 } ∧
      (DailyUsage.mk
          (User.mk [Subscription.mk (SubscriptionPlan.mk none) "active" 0 100]) 7 8 9 11).get_limits_dict.image_transform =
        { used := 9 + 11, limit := -1 }) := by
  refine ⟨by decide, rfl,
    C3_unlimited_plan
      (DailyUsage.mk
        (User.mk [Subscription.mk (SubscriptionPlan.mk none) "active" 0 100]) 7 8 9 11)
      (Subscription.mk (SubscriptionPlan.mk none) "active" 0 100) (by decide) rfl⟩

/-- Claim C4: an active subscription whose plan has finite limit N gives
every one of the three buckets the same ceiling N independently, each
bucket's used being only its own counters (no shared pooled budget). -/
theorem C4_finite_plan_flat (d : DailyUsage) (s : Subscription) (n : Int)
    (hs : d.user.subscription = some s) (hp : s.plan.monthly_processing_limit = some n) :
    d.get_limits_dict.background_removal = { used := d.background_removal_count, limit := n } ∧
    d.get_limits_dict.image_upscaling = { used := d.image_upscaling_count, limit := n } ∧
    d.get_limits_dict.image_transform =
      { used := d.text_watermark_count + d.crop_resize_count, limit := n } := by
  unfold DailyUsage.get_limits_dict
  simp [hs, hp]

/-- Witness for C4: a concrete active plan with limit 100. -/
theorem C4_finite_plan_flat_witness :
    (DailyUsage.mk
        (User.mk [Subscription.mk (SubscriptionPlan.mk (some 100)) "active" 0 100]) 40 30 20 10).user.subscription =
      some (Subscription.mk (SubscriptionPlan.mk (some 100)) "active" 0 100) ∧
    (Subscription.mk (SubscriptionPlan.mk (some 100)) "active" 0 100).plan.monthly_processing_limit =
      some 100 ∧
    ((DailyUsage.mk
          (User.mk [Subscription.mk (SubscriptionPlan.mk (some 100)) "active" 0 100]) 40 30 20 10).get_limits_dict.background_removal =
        { used := 40, limit := 100 } ∧
      (DailyUsage.mk
          (User.mk [Subscription.mk (SubscriptionPlan.mk (some 100)) "active" 0 100]) 40 30 20 10).get_limits_dict.image_upscaling =
        { used := 30, limit := 100 } ∧
      (DailyUsage.mk
          (User.mk [Subscription.mk (SubscriptionPlan.mk (some 100)) "active" 0 100]) 40 30 20 10).get_limits_dict.image_transform =
        { used := 20 + 10, limit := 100 }) := by
  refine ⟨by decide, rfl,
    C4_finite_plan_flat
      (DailyUsage.mk
        (User.mk [Subscription.mk (SubscriptionPlan.mk (some 100)) "active" 0 100]) 40 30 20 10)
      (Subscription.mk (SubscriptionPlan.mk (some 100)) "active" 0 100) 100 (by decide) rfl⟩

/-- Claim C5: every operation type other than exactly
`background-removal` and `image-upscaling` is decided against the
image-transform bucket's `{used, limit}` pair, not rejected. -/
theorem C5_catch_all (d : DailyUsage) (t : String)
    (h1 : t ≠ "background-removal") (h2 : t ≠ "image-upscaling") :
    d.can_process t =
      (d.get_limits_dict.image_transform.limit == -1 ||
        decide (d.get_limits_dict.image_transform.used <
          d.get_limits_dict.image_transform.limit)) := by
  unfold DailyUsage.can_process
  simp [h1, h2]

/-- Witness for C5, at the unrecognized type `super-resolution`. -/
theorem C5_catch_all_witness :
    ("super-resolution" ≠ "background-removal") ∧
    ("super-resolution" ≠ "image-upscaling") ∧
    (DailyUsage.mk (User.mk []) 0 0 7 8).can_process "super-resolution" =
      ((DailyUsage.mk (User.mk []) 0 0 7 8).get_limits_dict.image_transform.limit == -1 ||
        decide ((DailyUsage.mk (User.mk []) 0 0 7 8).get_limits_dict.image_transform.used <
          (DailyUsage.mk (User.mk []) 0 0 7 8).get_limits_dict.image_transform.limit)) :=
  ⟨by decide, by decide,
    C5_catch_all (DailyUsage.mk (User.mk []) 0 0 7 8) "super-resolution" (by decide) (by decide)⟩

/-- Claim C6: `increment_usage` increments exactly the counter whose
name matches the operation type exactly (the three others unchanged),
leaves all four counters unchanged for any other type value, and in
every case still persists the (possibly unchanged) row — the returned
row is the one saved, and its owning user is untouched. -/
theorem C6_increment_exact_match (d : DailyUsage) (t : String) :
    (d.increment_usage t).background_removal_count =
      (if t = "background-removal" then d.background_removal_count + 1
       else d.background_removal_count) ∧
    (d.increment_usage t).image_upscaling_count =
      (if t = "image-upscaling" then d.image_upscaling_count + 1
       else d.image_upscaling_count) ∧
    (d.increment_usage t).text_watermark_count =
      (if t = "text-watermark" then d.text_watermark_count + 1
       else d.text_watermark_count) ∧
    (d.increment_usage t).crop_resize_count =
      (if t = "crop-resize" then d.crop_resize_count + 1
       else d.crop_resize_count) ∧
    (d.increment_usage t).user = d.user :=
  increment_usage_counts d t

/-- Claim C7: the entitlement resolver selects only on
`status == "active"`, with no period-end filtering, so an expired but
still-active-status subscription is returned (its `is_active` being
false at the current time) and `get_limits_dict` still grants its plan
limit to all three buckets instead of the free-tier ceilings. -/
theorem C7_expired_active_sub (u : User) (s : Subscription) (rest : List Subscription)
    (now : Int) (d : DailyUsage) (n : Int)
    (hsubs : u.subscriptions = s :: rest) (hstatus : s.status = "active")
    (hexp : s.current_period_end ≤ now) (hd : d.user = u)
    (hplan : s.plan.monthly_processing_limit = some n) :
    u.subscription = some s ∧
    s.is_active now = false ∧
    d.get_limits_dict.background_removal.limit = n ∧
    d.get_limits_dict.image_upscaling.limit = n ∧
    d.get_limits_dict.image_transform.limit = n := by
  have hsub : u.subscription = some s := by
    unfold User.subscription
    rw [hsubs]
    simp [hstatus]
  have hl : d.user.subscription = some s := by rw [hd]; exact hsub
  refine ⟨hsub, ?_, ?_⟩
  · unfold Subscription.is_active
    simp [hstatus]
    omega
  · unfold DailyUsage.get_limits_dict
    simp [hl, hplan]

/-- Witness for C7: `exPaidSub` has status `active`, period end 100,
checked at time 200; the paid limit 100 is still granted. -/
theorem C7_expired_active_sub_witness :
    exPaidUser.subscriptions = exPaidSub :: [] ∧
    exPaidSub.status = "active" ∧
    exPaidSub.current_period_end ≤ 200 ∧
    exPaidRow.user = exPaidUser ∧
    exPaidSub.plan.monthly_processing_limit = some 100 ∧
    (exPaidUser.subscription = some exPaidSub ∧
      exPaidSub.is_active 200 = false ∧
      exPaidRow.get_limits_dict.background_removal.limit = 100 ∧
      exPaidRow.get_limits_dict.image_upscaling.limit = 100 ∧
      exPaidRow.get_limits_dict.image_transform.limit = 100) := by
  refine ⟨rfl, rfl, by decide, rfl, rfl,
    C7_expired_active_sub exPaidUser exPaidSub [] 200 exPaidRow 100
      rfl rfl (by decide) rfl rfl⟩

/-- Claim C8 fails on the code: incrementing `exFreeRow` (watermark 3,
crop-resize 4) with the unrecognized type `super-resolution` leaves the
image-transform used count at 3 + 4, not 3 + 4 + 1. -/
theorem C8_counterexample :
    ¬ ((exFreeRow.increment_usage "super-resolution").text_watermark_count +
        (exFreeRow.increment_usage "super-resolution").crop_resize_count =
       exFreeRow.text_watermark_count + exFreeRow.crop_resize_count + 1) := by
  decide

/-- Claim C8 amended: for an unrecognized operation type,
`increment_usage` is a no-op that still saves the row — all four
counters, hence the image-transform used count, are unchanged (only the
admission check falls through to the image-transform bucket). -/
theorem C8_amended_unrecognized_noop (d : DailyUsage) (t : String)
    (h1 : t ≠ "background-removal") (h2 : t ≠ "image-upscaling")
    (h3 : t ≠ "text-watermark") (h4 : t ≠ "crop-resize") :
    d.increment_usage t = d ∧
    (d.increment_usage t).text_watermark_count + (d.increment_usage t).crop_resize_count =
      d.text_watermark_count + d.crop_resize_count := by
  have h : d.increment_usage t = d := by
    unfold DailyUsage.increment_usage
    simp [h1, h2, h3, h4]
  exact ⟨h, by rw [h]⟩

/-- Witness for the amended C8, at the type `super-resolution`. -/
theorem C8_amended_unrecognized_noop_witness :
    ("super-resolution" ≠ "background-removal") ∧
    ("super-resolution" ≠ "image-upscaling") ∧
    ("super-resolution" ≠ "text-watermark") ∧
    ("super-resolution" ≠ "crop-resize") ∧
    (exFreeRow.increment_usage "super-resolution" = exFreeRow ∧
      (exFreeRow.increment_usage "super-resolution").text_watermark_count +
        (exFreeRow.increment_usage "super-resolution").crop_resize_count =
      exFreeRow.text_watermark_count + exFreeRow.crop_resize_count) := by
  refine ⟨by decide, by decide, by decide, by decide,
    C8_amended_unrecognized_noop exFreeRow "super-resolution"
      (by decide) (by decide) (by decide) (by decide)⟩

/-- Claim C9: `get_limits_dict` and `can_process` leave the ledger row
unchanged, and `increment_usage` never decreases any counter, so over
every sequence of core operations each of the four counters is
monotonically non-decreasing. -/
theorem C9_ledger_monotone :
    (∀ u : DailyUsage, applyOp u CoreOp.getLimits = u) ∧
    (∀ (u : DailyUsage) (t : String), applyOp u (CoreOp.canProcess t) = u) ∧
    (∀ (u : DailyUsage) (ops : List CoreOp),
      u.background_removal_count ≤ (ops.foldl applyOp u).background_removal_count ∧
      u.image_upscaling_count ≤ (ops.foldl applyOp u).image_upscaling_count ∧
      u.text_watermark_count ≤ (ops.foldl applyOp u).text_watermark_count ∧
      u.crop_resize_count ≤ (ops.foldl applyOp u).crop_resize_count) := by
  refine ⟨fun u => rfl, fun u t => rfl, ?_⟩
  intro u ops
  induction ops generalizing u with
  | nil => simp
  | cons op ops ih =>
    have hstep :
        u.background_removal_count ≤ (applyOp u op).background_removal_count ∧
        u.image_upscaling_count ≤ (applyOp u op).image_upscaling_count ∧
        u.text_watermark_count ≤ (applyOp u op).text_watermark_count ∧
        u.crop_resize_count ≤ (applyOp u op).crop_resize_count := by
      cases op with
      | getLimits => simp [applyOp]
      | canProcess t => simp [applyOp]
      | increment t =>
        obtain ⟨h1, h2, h3, h4, -⟩ := increment_usage_counts u t
        simp only [applyOp]
        split_ifs at h1 h2 h3 h4 <;> omega
    have hrest := ih (applyOp u op)
    simp only [List.foldl_cons]
    omega

/-- Claim C10: `increment_usage` enforces no admission precondition:
for every row and recognized operation type, even when `can_process` is
false the increment still adds 1 to the mapped bucket's used count,
leaving its limit unchanged, so the used count strictly exceeds the
finite limit. -/
theorem C10_increment_past_limit (d : DailyUsage) (t : String)
    (ht : t = "background-removal" ∨ t = "image-upscaling" ∨
          t = "text-watermark" ∨ t = "crop-resize")
    (hdeny : d.can_process t = false) :
    (mappedBucket (d.increment_usage t).get_limits_dict t).used =
      (mappedBucket d.get_limits_dict t).used + 1 ∧
    (mappedBucket (d.increment_usage t).get_limits_dict t).limit =
      (mappedBucket d.get_limits_dict t).limit ∧
    (mappedBucket d.get_limits_dict t).limit <
      (mappedBucket (d.increment_usage t).get_limits_dict t).used := by
  obtain ⟨h1, h2, h3, h4, hus⟩ := increment_usage_counts d t
  obtain ⟨hu1, hu2, hu3⟩ := get_limits_dict_used d
  obtain ⟨hv1, hv2, hv3⟩ := get_limits_dict_used (d.increment_usage t)
  obtain ⟨hl1, hl2, hl3⟩ := get_limits_dict_limits_user (d.increment_usage t) d hus
  unfold DailyUsage.can_process at hdeny
  rcases ht with rfl | rfl | rfl | rfl <;>
    simp only [mappedBucket] <;>
    simp at hdeny h1 h2 h3 h4 ⊢ <;>
    omega

/-- Witness for C10: a free-tier row at the background-removal ceiling
10 is denied, yet the increment pushes used to 11 > 10. -/
theorem C10_increment_past_limit_witness :
    ("background-removal" = "background-removal" ∨ "background-removal" = "image-upscaling" ∨
      "background-removal" = "text-watermark" ∨ "background-removal" = "crop-resize") ∧
    exFreeRowAtCap.can_process "background-removal" = false ∧
    ((mappedBucket (exFreeRowAtCap.increment_usage "background-removal").get_limits_dict
          "background-removal").used =
        (mappedBucket exFreeRowAtCap.get_limits_dict "background-removal").used + 1 ∧
      (mappedBucket (exFreeRowAtCap.increment_usage "background-removal").get_limits_dict
          "background-removal").limit =
        (mappedBucket exFreeRowAtCap.get_limits_dict "background-removal").limit ∧
      (mappedBucket exFreeRowAtCap.get_limits_dict "background-removal").limit <
        (mappedBucket (exFreeRowAtCap.increment_usage "background-removal").get_limits_dict
          "background-removal").used) := by
  refine ⟨Or.inl rfl, by decide,
    C10_increment_past_limit exFreeRowAtCap "background-removal" (Or.inl rfl) (by decide)⟩
